import Mathlib

/-!
# Verification of the MC_backend P2P trading core

Shallow embedding of the Express/PostgreSQL backend (`src/unnamed/part_002`,
schema in `src/src/db.js`).  Conventions of the embedding:

* SQL `NUMERIC` columns and JavaScript numbers are modelled as exact
  rationals (`ℚ`); timestamps are milliseconds since epoch (`Nat`).
* The `internal_balances` table is modelled as a total map `Nat → ℚ`
  defaulting to 0: every code path that mutates a balance first inserts a
  `(user_id, 0)` row when none exists (or inserts the credited amount
  directly), so a missing row always behaves as balance 0.
* Each HTTP handler becomes a pure function taking the rows it `SELECT`s
  (the fetched offer/trade) plus the relevant database state, and returning
  `Except` of the error it would respond with, or the mutated state.  The
  handlers perform every validation before any write, so an `Except.error`
  result corresponds to a request that left the database untouched.
* `String.prototype.toUpperCase().trim()` is modelled character-wise
  (`jsUpperTrim`), and the regex `^(\d+)M$` of `calculateExpirationDate`
  is modelled over the character list of its input.
-/

namespace MCBackend

/-- Offer side, column `offers.type` (values `'BUY'` / `'SELL'`). -/
inductive OfferType
  | BUY
  | SELL
deriving DecidableEq

/-- Column `offers.status` (`DEFAULT 'OPEN'`). -/
inductive OfferStatus
  | OPEN
  | CANCELLED
deriving DecidableEq

/-- Column `trades.status` (`DEFAULT 'PENDING'`). -/
inductive TradeStatus
  | PENDING
  | PENDING_PAYMENT
  | PAID_PENDING_RELEASE
  | COMPLETED
  | CANCELLED
  | DISPUTED
deriving DecidableEq

/-- Column `disputes.status` (`DEFAULT 'OPEN'`). -/
inductive DisputeStatus
  | OPEN
  | RESOLVED
  | REJECTED
  | CLOSED
deriving DecidableEq

/-- A row of the `offers` table. -/
structure Offer where
  id : Nat
  maker_id : Nat
  type : OfferType
  asset_symbol : String
  fiat_currency : String
  price : ℚ
  amount : ℚ
  remaining : ℚ
  status : OfferStatus
deriving DecidableEq

/-- A row of the `trades` table (`fee_amount` and `fee_rate` have
schema default 0). -/
structure Trade where
  id : Nat
  offer_id : Nat
  buyer_id : Nat
  seller_id : Nat
  amount : ℚ
  price : ℚ
  asset_symbol : String
  fiat_currency : String
  status : TradeStatus
  paid_at : Option Nat
  payment_screenshot : Option String
  released_at : Option Nat
  cancelled_at : Option Nat
  fee_amount : ℚ
  fee_rate : ℚ
deriving DecidableEq

/-- A row of the `fda_holdings` table. -/
structure Holding where
  user_id : Nat
  amount : ℚ
  expires_at : Nat
deriving DecidableEq

/-- A row of the `internal_transfers` audit table. -/
structure Transfer where
  from_user_id : Nat
  to_user_id : Nat
  amount : ℚ
deriving DecidableEq

/-- A row of the `disputes` table. -/
structure Dispute where
  trade_id : Nat
  raised_by_id : Nat
  reason : String
  status : DisputeStatus
deriving DecidableEq

/-- The database state the modelled handlers read and write.
`p2p_fee_rate` and `holding_fda_amount` are the two `settings` rows the
core consults (`none` models an absent row). -/
structure St where
  balances : Nat → ℚ
  offers : List Offer
  holdings : List Holding
  transfers : List Transfer
  p2p_fee_rate : Option ℚ
  holding_fda_amount : Option ℚ
  nextOfferId : Nat
  nextTradeId : Nat

instance : Inhabited St :=
  ⟨⟨fun _ => 0, [], [], [], none, none, 1, 1⟩⟩

instance : Inhabited Trade :=
  ⟨⟨0, 0, 0, 0, 0, 0, "", "", TradeStatus.PENDING, none, none, none, none, 0, 0⟩⟩

instance : Inhabited Offer :=
  ⟨⟨0, 0, OfferType.BUY, "", "", 0, 0, 0, OfferStatus.OPEN⟩⟩

/-- `UPDATE internal_balances SET fda_balance = fda_balance + δ WHERE user_id = uid`
(with the insert-if-missing convention folded into the total map). -/
def updateBalance (s : St) (uid : Nat) (δ : ℚ) : St :=
  { s with balances := fun u => if u = uid then s.balances u + δ else s.balances u }

/-- `SELECT COALESCE(SUM(remaining), 0) FROM offers WHERE maker_id = ? AND
type = 'SELL' AND status = 'OPEN' AND asset_symbol = 'FDA'`. -/
def lockedInOpenSellOffers (s : St) (uid : Nat) : ℚ :=
  ((s.offers.filter fun o =>
      decide (o.maker_id = uid ∧ o.type = OfferType.SELL ∧
        o.status = OfferStatus.OPEN ∧ o.asset_symbol = "FDA")).map Offer.remaining).sum

/-- `SELECT COALESCE(SUM(amount), 0) FROM fda_holdings WHERE user_id = ? AND
expires_at > CURRENT_TIMESTAMP`. -/
def holdingLockedAmount (s : St) (uid : Nat) (now : Nat) : ℚ :=
  ((s.holdings.filter fun h =>
      decide (h.user_id = uid ∧ now < h.expires_at)).map Holding.amount).sum

/-- Usable balance as computed by the offer-creation and offer-acceptance
handlers: `available = balance - locked`, then
`usable = available - holdingAmount - holdingLocked`. -/
def usableBalance (s : St) (uid : Nat) (now : Nat) : ℚ :=
  s.balances uid - lockedInOpenSellOffers s uid
    - (s.holding_fda_amount).getD 0 - holdingLockedAmount s uid now

/-- JavaScript whitespace trim over a character list. -/
def trimChars (cs : List Char) : List Char :=
  ((cs.dropWhile Char.isWhitespace).reverse.dropWhile Char.isWhitespace).reverse

/-- `String(x).toUpperCase().trim()` as used for offer-type and
holding-period normalisation. -/
def jsUpperTrim (s : String) : String :=
  String.mk (trimChars (s.toList.map Char.toUpper))

/-- Failure responses of `POST /offers`. -/
inductive OfferErr
  | missingFields
  | invalidType
  | insufficientBalance
  | insufficientUsable
deriving DecidableEq

/-- The final `INSERT INTO offers ... VALUES (maker, type, asset, fiat,
price, amount, amount, ...)`; `status` takes its schema default `'OPEN'`. -/
def insertOffer (s : St) (makerId : Nat) (t : OfferType)
    (assetSymbol fiatCurrency : String) (price amount : ℚ) :
    Except OfferErr (St × Offer) :=
  let o : Offer :=
    { id := s.nextOfferId, maker_id := makerId, type := t,
      asset_symbol := assetSymbol, fiat_currency := fiatCurrency,
      price := price, amount := amount, remaining := amount,
      status := OfferStatus.OPEN }
  Except.ok ({ s with offers := s.offers ++ [o], nextOfferId := s.nextOfferId + 1 }, o)

/-- `POST /offers` (`apiRouter.post('/offers')`).  The JS falsiness check
`!type || !assetSymbol || !fiatCurrency || !price || !amount` is modelled
as empty-string / zero tests.  For `SELL` offers in asset `FDA` the
handler computes the usable balance, rejects on either shortfall, and
otherwise debits `amount` from the maker before inserting the offer. -/
def createOffer (s : St) (makerId : Nat) (type assetSymbol fiatCurrency : String)
    (price amount : ℚ) (now : Nat) : Except OfferErr (St × Offer) :=
  if type = "" ∨ assetSymbol = "" ∨ fiatCurrency = "" ∨ price = 0 ∨ amount = 0 then
    Except.error OfferErr.missingFields
  else
    let normalizedType := jsUpperTrim type
    if normalizedType ≠ "BUY" ∧ normalizedType ≠ "SELL" then
      Except.error OfferErr.invalidType
    else if normalizedType = "SELL" ∧ assetSymbol = "FDA" then
      if s.balances makerId < amount then
        Except.error OfferErr.insufficientBalance
      else if usableBalance s makerId now < amount then
        Except.error OfferErr.insufficientUsable
      else
        insertOffer (updateBalance s makerId (-amount)) makerId OfferType.SELL
          assetSymbol fiatCurrency price amount
    else
      insertOffer s makerId
        (if normalizedType = "BUY" then OfferType.BUY else OfferType.SELL)
        assetSymbol fiatCurrency price amount

/-- Failure responses of `POST /offers/:id/cancel`. -/
inductive CancelOfferErr
  | forbidden
  | invalidState
deriving DecidableEq

/-- `POST /offers/:id/cancel`: only the maker may cancel, only while
`OPEN`; a `SELL`/`FDA` offer credits its `remaining` back to the maker's
balance; the offer becomes `CANCELLED`. -/
def cancelOffer (s : St) (offer : Offer) (actorId : Nat) : Except CancelOfferErr (St × Offer) :=
  if offer.maker_id ≠ actorId then
    Except.error CancelOfferErr.forbidden
  else if offer.status ≠ OfferStatus.OPEN then
    Except.error CancelOfferErr.invalidState
  else
    let s1 :=
      if offer.type = OfferType.SELL ∧ offer.asset_symbol = "FDA" then
        updateBalance s actorId offer.remaining
      else s
    let updated := { offer with status := OfferStatus.CANCELLED }
    Except.ok
      ({ s1 with offers := s1.offers.map fun o => if o.id = offer.id then updated else o },
        updated)

/-- Failure responses of `POST /trades` (offer acceptance). -/
inductive AcceptErr
  | invalidAmount
  | offerNotAvailable
  | insufficientRemaining
  | insufficientBalance
  | insufficientUsable
deriving DecidableEq

/-- `POST /trades` (`apiRouter.post('/trades')`): accept an offer.  Roles:
accepting a `SELL` offer makes the acceptor the buyer and the maker the
seller; accepting a `BUY` offer the reverse.  Accepting a `BUY`/`FDA`
offer runs the same usable-balance check and pre-debit on the acceptor as
offer creation.  The trade is inserted with status `'PENDING'` (schema
default for `fee_amount`/`fee_rate` is 0) and `offer.remaining` is
decremented by `amount`. -/
def acceptOffer (s : St) (offer : Offer) (acceptorId : Nat) (amount : ℚ) (now : Nat) :
    Except AcceptErr (St × Trade) :=
  if amount ≤ 0 then
    Except.error AcceptErr.invalidAmount
  else if offer.status ≠ OfferStatus.OPEN then
    Except.error AcceptErr.offerNotAvailable
  else if offer.remaining < amount then
    Except.error AcceptErr.insufficientRemaining
  else
    let buyerId := if offer.type = OfferType.SELL then acceptorId else offer.maker_id
    let sellerId := if offer.type = OfferType.SELL then offer.maker_id else acceptorId
    let proceed : St → Except AcceptErr (St × Trade) := fun s1 =>
      let t : Trade :=
        { id := s1.nextTradeId, offer_id := offer.id,
          buyer_id := buyerId, seller_id := sellerId,
          amount := amount, price := offer.price,
          asset_symbol := offer.asset_symbol, fiat_currency := offer.fiat_currency,
          status := TradeStatus.PENDING,
          paid_at := none, payment_screenshot := none,
          released_at := none, cancelled_at := none,
          fee_amount := 0, fee_rate := 0 }
      Except.ok
        ({ s1 with
            offers := s1.offers.map fun o =>
              if o.id = offer.id then { o with remaining := o.remaining - amount } else o,
            nextTradeId := s1.nextTradeId + 1 }, t)
    if offer.type = OfferType.BUY ∧ offer.asset_symbol = "FDA" then
      if s.balances acceptorId < amount then
        Except.error AcceptErr.insufficientBalance
      else if usableBalance s acceptorId now < amount then
        Except.error AcceptErr.insufficientUsable
      else
        proceed (updateBalance s acceptorId (-amount))
    else
      proceed s

/-- Failure responses of `POST /trades/:id/mark-paid`. -/
inductive MarkPaidErr
  | forbidden
deriving DecidableEq

/-- `POST /trades/:id/mark-paid`: only the buyer may call it; the handler
performs no status check, and always overwrites `status`, `paid_at` and
`payment_screenshot`. -/
def markPaid (trade : Trade) (actorId : Nat) (paymentScreenshot : Option String)
    (now : Nat) : Except MarkPaidErr Trade :=
  if trade.buyer_id ≠ actorId then
    Except.error MarkPaidErr.forbidden
  else
    Except.ok
      { trade with
        status := TradeStatus.PAID_PENDING_RELEASE,
        paid_at := some now,
        payment_screenshot := paymentScreenshot }

/-- Failure responses of `POST /trades/:id/release`. -/
inductive ReleaseErr
  | forbidden
  | invalidState
deriving DecidableEq

/-- Fee and buyer payout of the release endpoint:
`feeRatePercent = p2p_fee_rate setting or 0`, `P2P_FEE_RATE = percent/100`,
`fee = amount * P2P_FEE_RATE`, `amountToBuyer = amount - fee`. -/
def releasePayout (feeSetting : Option ℚ) (amount : ℚ) : ℚ × ℚ :=
  let feeRatePercent := feeSetting.getD 0
  let p2pFeeRate := feeRatePercent / 100
  let fee := amount * p2pFeeRate
  (fee, amount - fee)

/-- `POST /trades/:id/release`: only the seller, only from
`PAID_PENDING_RELEASE`.  Credits `amountToBuyer` to the buyer (the seller
was debited at offer/accept time, so no seller-side debit), records an
`internal_transfers` row, and completes the trade recording `fee_amount`
and `fee_rate`. -/
def releaseTrade (s : St) (trade : Trade) (actorId : Nat) (now : Nat) :
    Except ReleaseErr (St × Trade) :=
  if trade.seller_id ≠ actorId then
    Except.error ReleaseErr.forbidden
  else if trade.status ≠ TradeStatus.PAID_PENDING_RELEASE then
    Except.error ReleaseErr.invalidState
  else
    let fee := (releasePayout s.p2p_fee_rate trade.amount).1
    let amountToBuyer := (releasePayout s.p2p_fee_rate trade.amount).2
    let s1 := updateBalance s trade.buyer_id amountToBuyer
    let s2 :=
      { s1 with transfers := s1.transfers ++
          [{ from_user_id := trade.seller_id, to_user_id := trade.buyer_id,
             amount := amountToBuyer }] }
    Except.ok
      (s2, { trade with
             status := TradeStatus.COMPLETED,
             released_at := some now,
             fee_amount := fee,
             fee_rate := (s.p2p_fee_rate).getD 0 / 100 })

/-- Failure responses of `POST /trades/:id/cancel`. -/
inductive CancelTradeErr
  | forbidden
  | invalidState
deriving DecidableEq

/-- `POST /trades/:id/cancel`: buyer or seller, only from `PENDING` or
`PENDING_PAYMENT`.  Returns `amount` to the parent offer's `remaining`
and cancels the trade; no balance row is touched. -/
def cancelTrade (s : St) (trade : Trade) (actorId : Nat) (now : Nat) :
    Except CancelTradeErr (St × Trade) :=
  if trade.buyer_id ≠ actorId ∧ trade.seller_id ≠ actorId then
    Except.error CancelTradeErr.forbidden
  else if trade.status ≠ TradeStatus.PENDING ∧ trade.status ≠ TradeStatus.PENDING_PAYMENT then
    Except.error CancelTradeErr.invalidState
  else
    let s1 :=
      { s with offers := s.offers.map fun o =>
          if o.id = trade.offer_id then { o with remaining := o.remaining + trade.amount } else o }
    Except.ok (s1, { trade with status := TradeStatus.CANCELLED, cancelled_at := some now })

/-- Failure responses of `POST /trades/:id/disputes`. -/
inductive OpenDisputeErr
  | reasonRequired
  | forbidden
  | paidAtMissing
  | windowExpired
  | alreadyExists
deriving DecidableEq

/-- The 2-hour dispute window, in milliseconds (`2 * 60 * 60 * 1000`). -/
def twoHoursMs : Nat := 2 * 60 * 60 * 1000

/-- `POST /trades/:id/disputes`: requires a reason and that the actor is
buyer or seller.  Only when the raiser is the buyer and the trade is
`PAID_PENDING_RELEASE` does the handler check the 2-hour window after
`paid_at` (`isExpired = now > paid_at + 2h`).  It then rejects duplicate
disputes, inserts the dispute (`status 'OPEN'`) and forces the trade to
`DISPUTED` whatever its previous status.  `existingDispute` is the result
of `SELECT * FROM disputes WHERE trade_id = ?`. -/
def openDispute (trade : Trade) (actorId : Nat) (reason : String)
    (existingDispute : Bool) (now : Nat) : Except OpenDisputeErr (Trade × Dispute) :=
  if reason = "" then
    Except.error OpenDisputeErr.reasonRequired
  else if trade.buyer_id ≠ actorId ∧ trade.seller_id ≠ actorId then
    Except.error OpenDisputeErr.forbidden
  else
    let insertAndMark : Except OpenDisputeErr (Trade × Dispute) :=
      if existingDispute then
        Except.error OpenDisputeErr.alreadyExists
      else
        Except.ok
          ({ trade with status := TradeStatus.DISPUTED },
           { trade_id := trade.id, raised_by_id := actorId, reason := reason,
             status := DisputeStatus.OPEN })
    if trade.buyer_id = actorId ∧ trade.status = TradeStatus.PAID_PENDING_RELEASE then
      match trade.paid_at with
      | none => Except.error OpenDisputeErr.paidAtMissing
      | some paidAt =>
        if now > paidAt + twoHoursMs then
          Except.error OpenDisputeErr.windowExpired
        else insertAndMark
    else insertAndMark

/-- Fee and buyer payout of the admin dispute-resolution `release` action:
`feeAmount = amount * (parseFloat(trade.fee_rate) || 0.01)` — the stored
per-trade rate with a 1% fallback when it is 0 (its schema default) —
`amountToBuyer = amount - feeAmount`. -/
def disputeReleasePayout (feeRateStored amount : ℚ) : ℚ × ℚ :=
  let feeAmount := amount * (if feeRateStored = 0 then 1 / 100 else feeRateStored)
  (feeAmount, amount - feeAmount)

/-- The `trade_action === 'release'` branch of
`POST /admin/disputes/:id/resolve`: if the trade is `DISPUTED`, credit the
buyer with `amountToBuyer`, append an `internal_transfers` row, and
complete the trade (without updating `fee_amount` or `fee_rate`);
otherwise leave everything unchanged. -/
def adminResolveReleaseTrade (s : St) (trade : Trade) (now : Nat) : St × Trade :=
  if trade.status = TradeStatus.DISPUTED then
    let amountToBuyer := (disputeReleasePayout trade.fee_rate trade.amount).2
    let s1 := updateBalance s trade.buyer_id amountToBuyer
    let s2 :=
      { s1 with transfers := s1.transfers ++
          [{ from_user_id := trade.seller_id, to_user_id := trade.buyer_id,
             amount := amountToBuyer }] }
    (s2, { trade with status := TradeStatus.COMPLETED, released_at := some now })
  else (s, trade)

/-- Core of `calculateExpirationDate`: uppercase-and-trim the period
string, match `^(\d+)M$` (the char `Char.ofNat 77` is `M`), parse the
digits, and reject a zero month count.  Returns the month count, or
`none` when the handler would respond 400. -/
def parseHoldingMonths (holdingPeriod : String) : Option Nat :=
  let cs := (jsUpperTrim holdingPeriod).toList
  if cs.getLast? = some (Char.ofNat 77) then
    let digits := cs.dropLast
    if digits ≠ [] ∧ digits.all Char.isDigit then
      let months := digits.foldl (fun acc c => acc * 10 + (c.toNat - 48)) 0
      if months = 0 then none else some months
    else none
  else none

/-- `expirationDate.setMonth(now.getMonth() + months)`, abstracted: the
claims under proof depend only on when a holding row is created, not on
the calendar value of its expiry. -/
def addMonths (now months : Nat) : Nat := now + months

/-- The classes of `req.body.amount` after `parseFloat`: absent/empty,
non-numeric (`NaN`), or a numeric value. -/
inductive AmountInput
  | missing
  | notNumeric
  | value (q : ℚ)
deriving DecidableEq

/-- Failure responses of `POST /fda/transfer-to-mc-wallet`. -/
inductive TransferErr
  | userIdRequired
  | amountRequired
  | amountNotNumeric
  | amountNotPositive
  | invalidHoldingPeriod
  | userNotFound
deriving DecidableEq

/-- `POST /fda/transfer-to-mc-wallet` (bulk funding): validates `userId`,
the amount (`required`, numeric, `> 0`) and — when a non-empty
`holdingPeriod` is given — `calculateExpirationDate`, all before any
write; then credits the user's balance and, when a holding period was
given, appends an `fda_holdings` row.  `lookupUser` is the result of the
user lookup by fda id / email / phone. -/
def transferToMcWallet (s : St) (userId : Option String) (amount : AmountInput)
    (holdingPeriod : Option String) (lookupUser : Option Nat) (now : Nat) :
    Except TransferErr St :=
  if userId.getD "" = "" then
    Except.error TransferErr.userIdRequired
  else
    match amount with
    | AmountInput.missing => Except.error TransferErr.amountRequired
    | AmountInput.notNumeric => Except.error TransferErr.amountNotNumeric
    | AmountInput.value amountNum =>
      if amountNum ≤ 0 then
        Except.error TransferErr.amountNotPositive
      else
        let monthsParsed : Except TransferErr (Option Nat) :=
          if holdingPeriod.getD "" = "" then Except.ok none
          else
            match parseHoldingMonths (holdingPeriod.getD "") with
            | none => Except.error TransferErr.invalidHoldingPeriod
            | some m => Except.ok (some m)
        match monthsParsed with
        | Except.error e => Except.error e
        | Except.ok monthsOpt =>
          match lookupUser with
          | none => Except.error TransferErr.userNotFound
          | some localUserId =>
            let s1 := updateBalance s localUserId amountNum
            match monthsOpt with
            | none => Except.ok s1
            | some months =>
              Except.ok
                { s1 with holdings := s1.holdings ++
                    [{ user_id := localUserId, amount := amountNum,
                       expires_at := addMonths now months }] }

/-- The database state after the bulk-funding request is handled: the new
state on success, the untouched state when the handler responded with a
validation error (every error return in the handler precedes its first
write). -/
def transferResultState (s : St) (userId : Option String) (amount : AmountInput)
    (holdingPeriod : Option String) (lookupUser : Option Nat) (now : Nat) : St :=
  match transferToMcWallet s userId amount holdingPeriod lookupUser now with
  | Except.ok s' => s'
  | Except.error _ => s

/-- The spec's literal pattern for holding periods: the raw string is one
or more digits followed by an uppercase `M` (`Char.ofNat 77`), and the
digits denote a positive month count.  Stated from the spec's words, for
comparison with `parseHoldingMonths`. -/
def specMonthsPattern (s : String) : Bool :=
  let cs := s.toList
  (cs.getLast? == some (Char.ofNat 77)) && (!cs.dropLast.isEmpty) &&
    cs.dropLast.all Char.isDigit &&
    decide (0 < cs.dropLast.foldl (fun acc c => acc * 10 + (c.toNat - 48)) 0)

/-! ## C3 — markPaid -/

/-! ## Concrete instances used by the witnesses and counterexamples -/

/-- A `COMPLETED` trade used to probe `markPaid`'s missing status guard. -/
def c3trade : Trade :=
  { id := 1, offer_id := 1, buyer_id := 7, seller_id := 8, amount := 10, price := 1,
    asset_symbol := "FDA", fiat_currency := "USD", status := TradeStatus.COMPLETED,
    paid_at := some 100, payment_screenshot := none, released_at := some 500,
    cancelled_at := none, fee_amount := 0, fee_rate := 0 }

/-- A concrete `PAID_PENDING_RELEASE` trade with `paid_at = 0` for the
window witness. -/
def c6trade : Trade :=
  { id := 2, offer_id := 1, buyer_id := 7, seller_id := 8, amount := 10, price := 1,
    asset_symbol := "FDA", fiat_currency := "USD",
    status := TradeStatus.PAID_PENDING_RELEASE,
    paid_at := some 0, payment_screenshot := some "proof", released_at := none,
    cancelled_at := none, fee_amount := 0, fee_rate := 0 }

/-- A `COMPLETED` trade on which a dispute is still possible. -/
def c10trade : Trade :=
  { id := 3, offer_id := 1, buyer_id := 4, seller_id := 5, amount := 20, price := 2,
    asset_symbol := "FDA", fiat_currency := "USD", status := TradeStatus.COMPLETED,
    paid_at := some 100, payment_screenshot := none, released_at := some 500,
    cancelled_at := none, fee_amount := 0, fee_rate := 0 }

/-- State for the release witness: the fee setting `p2p_fee_rate = 5`. -/
def c4st : St :=
  { balances := fun _ => 0, offers := [], holdings := [], transfers := [],
    p2p_fee_rate := some 5, holding_fda_amount := none,
    nextOfferId := 1, nextTradeId := 2 }

/-- A trade of amount 100 awaiting release (seller 1, buyer 2). -/
def c4trade : Trade :=
  { id := 1, offer_id := 1, buyer_id := 2, seller_id := 1, amount := 100, price := 1,
    asset_symbol := "FDA", fiat_currency := "USD",
    status := TradeStatus.PAID_PENDING_RELEASE,
    paid_at := some 50, payment_screenshot := some "proof", released_at := none,
    cancelled_at := none, fee_amount := 0, fee_rate := 0 }

/-- The state/trade pair produced by releasing `c4trade`. -/
def c4pair : St × Trade := (releaseTrade c4st c4trade 1 60).toOption.getD default

/-- A pending trade (buyer 3, seller 1) over offer 1 for the cancellation
witness. -/
def c5trade : Trade :=
  { id := 4, offer_id := 1, buyer_id := 3, seller_id := 1, amount := 20, price := 1,
    asset_symbol := "FDA", fiat_currency := "USD", status := TradeStatus.PENDING,
    paid_at := none, payment_screenshot := none, released_at := none,
    cancelled_at := none, fee_amount := 0, fee_rate := 0 }

/-- The parent offer of `c5trade`, with 30 remaining of 50. -/
def c5offer : Offer :=
  { id := 1, maker_id := 1, type := OfferType.SELL, asset_symbol := "FDA",
    fiat_currency := "USD", price := 1, amount := 50, remaining := 30,
    status := OfferStatus.OPEN }

/-- State for the cancellation witness: seller 1 already debited down to
40, offer 1 open with 30 remaining. -/
def c5st : St :=
  { balances := fun u => if u = 1 then 40 else 0, offers := [c5offer],
    holdings := [], transfers := [], p2p_fee_rate := none,
    holding_fda_amount := none, nextOfferId := 2, nextTradeId := 5 }

/-- State for the C2 comparison: `p2p_fee_rate = 5`, all balances 0. -/
def c2st : St :=
  { balances := fun _ => 0, offers := [], holdings := [], transfers := [],
    p2p_fee_rate := some 5, holding_fda_amount := none,
    nextOfferId := 1, nextTradeId := 2 }

/-- A disputed trade of amount 100 (buyer 2, seller 1) whose stored
`fee_rate` is 0 — the schema default, which every trade keeps until the
engine's release writes it. -/
def c2dtrade : Trade :=
  { id := 1, offer_id := 1, buyer_id := 2, seller_id := 1, amount := 100, price := 1,
    asset_symbol := "FDA", fiat_currency := "USD", status := TradeStatus.DISPUTED,
    paid_at := some 50, payment_screenshot := some "proof", released_at := none,
    cancelled_at := none, fee_amount := 0, fee_rate := 0 }

/-- The same trade as `c2dtrade` but in `PAID_PENDING_RELEASE`, for the
engine-side release. -/
def c2ptrade : Trade :=
  { c2dtrade with status := TradeStatus.PAID_PENDING_RELEASE }

/-- The engine-side release of `c2ptrade`. -/
def c2enginePair : St × Trade := (releaseTrade c2st c2ptrade 1 60).toOption.getD default

/-- State for the C1 witness: maker 1 holds 100, the holding floor is 10,
and there are no open offers or holdings, so the usable balance is 90. -/
def c1st : St :=
  { balances := fun _ => 100, offers := [], holdings := [], transfers := [],
    p2p_fee_rate := none, holding_fda_amount := some 10,
    nextOfferId := 1, nextTradeId := 1 }

/-- State for the C7 witness: maker 1 holds 100, no floor, no holdings. -/
def c7st : St :=
  { balances := fun _ => 100, offers := [], holdings := [], transfers := [],
    p2p_fee_rate := none, holding_fda_amount := none,
    nextOfferId := 1, nextTradeId := 1 }

/-- An open SELL offer by maker 1 with 10 FDA remaining. -/
def c9offer : Offer :=
  { id := 1, maker_id := 1, type := OfferType.SELL, asset_symbol := "FDA",
    fiat_currency := "USD", price := 10, amount := 10, remaining := 10,
    status := OfferStatus.OPEN }

/-- State holding `c9offer` only. -/
def c9st : St :=
  { balances := fun _ => 0, offers := [c9offer], holdings := [], transfers := [],
    p2p_fee_rate := none, holding_fda_amount := none,
    nextOfferId := 2, nextTradeId := 1 }

/-- The result of maker 1 accepting their own offer. -/
def c9pair : St × Trade := (acceptOffer c9st c9offer 1 5 0).toOption.getD default

/-- The result of user 2 (not the maker) accepting `c9offer`. -/
def c9wpair : St × Trade := (acceptOffer c9st c9offer 2 5 0).toOption.getD default

/-- Empty state for the bulk-funding theorems. -/
def c8st : St :=
  { balances := fun _ => 0, offers := [], holdings := [], transfers := [],
    p2p_fee_rate := none, holding_fda_amount := none,
    nextOfferId := 1, nextTradeId := 1 }

/-- The state after bulk-funding user 42 with 5 FDA and period "6m". -/
def c8res : St :=
  transferResultState c8st (some "user1") (AmountInput.value 5) (some "6m") (some 42) 0

/-- C3 counterexample: `markPaid` succeeds on a trade whose status is
`COMPLETED` (the handler checks only that the caller is the buyer), so the
claim that it is allowed only while the status is `PENDING` or
`PAID_PENDING_RELEASE` is false. -/
theorem markPaid_succeeds_on_completed_trade :
    c3trade.status = TradeStatus.COMPLETED ∧
    markPaid c3trade 7 none 1000 =
      Except.ok
        { c3trade with
          status := TradeStatus.PAID_PENDING_RELEASE,
          paid_at := some 1000,
          payment_screenshot := none } :=
  ⟨rfl, rfl⟩

/-- C3 (amended): `markPaid` fails with `Forbidden` unless the actor is the
trade's buyer and imposes no precondition on the trade's status; on success
it sets `status = PAID_PENDING_RELEASE` and always refreshes `paid_at`, so
calling it twice leaves the status at `PAID_PENDING_RELEASE` with `paid_at`
equal to the later call's timestamp. -/
theorem markPaid_buyer_only_no_status_guard
    (trade : Trade) (actorId : Nat) (shot1 shot2 : Option String) (now1 now2 : Nat) :
    (trade.buyer_id ≠ actorId →
      markPaid trade actorId shot1 now1 = Except.error MarkPaidErr.forbidden) ∧
    (trade.buyer_id = actorId →
      markPaid trade actorId shot1 now1 =
        Except.ok
          { trade with
            status := TradeStatus.PAID_PENDING_RELEASE,
            paid_at := some now1,
            payment_screenshot := shot1 } ∧
      markPaid
          { trade with
            status := TradeStatus.PAID_PENDING_RELEASE,
            paid_at := some now1,
            payment_screenshot := shot1 } actorId shot2 now2 =
        Except.ok
          { trade with
            status := TradeStatus.PAID_PENDING_RELEASE,
            paid_at := some now2,
            payment_screenshot := shot2 }) := by
  constructor
  · intro h
    simp [markPaid, h]
  · intro h
    constructor
    · simp [markPaid, h]
    · simp [markPaid, h]

/-- Witness for `markPaid_buyer_only_no_status_guard` at a concrete trade:
two successive calls by the buyer both succeed and the second timestamp
wins. -/
theorem markPaid_buyer_only_no_status_guard_witness :
    markPaid c3trade 7 (some "a") 1000 =
      Except.ok
        { c3trade with
          status := TradeStatus.PAID_PENDING_RELEASE,
          paid_at := some 1000,
          payment_screenshot := some "a" } ∧
    markPaid
        { c3trade with
          status := TradeStatus.PAID_PENDING_RELEASE,
          paid_at := some 1000,
          payment_screenshot := some "a" } 7 (some "b") 2000 =
      Except.ok
        { c3trade with
          status := TradeStatus.PAID_PENDING_RELEASE,
          paid_at := some 2000,
          payment_screenshot := some "b" } :=
  (markPaid_buyer_only_no_status_guard c3trade 7 (some "a") (some "b") 1000 2000).2 rfl

/-! ## C6 and C10 — openDispute -/

/-- C6: for a trade in `PAID_PENDING_RELEASE` with a buyer-raised dispute
(no existing dispute, non-empty reason, `paid_at` recorded), the dispute
succeeds — forcing the trade to `DISPUTED` — when raised at or before
`paid_at + 2h`, and fails with `WindowExpired` strictly after. -/
theorem openDispute_buyer_two_hour_window
    (trade : Trade) (reason : String) (now paidAt : Nat)
    (hreason : reason ≠ "")
    (hstatus : trade.status = TradeStatus.PAID_PENDING_RELEASE)
    (hpaid : trade.paid_at = some paidAt) :
    (now ≤ paidAt + twoHoursMs →
      openDispute trade trade.buyer_id reason false now =
        Except.ok
          ({ trade with status := TradeStatus.DISPUTED },
           { trade_id := trade.id, raised_by_id := trade.buyer_id, reason := reason,
             status := DisputeStatus.OPEN })) ∧
    (paidAt + twoHoursMs < now →
      openDispute trade trade.buyer_id reason false now =
        Except.error OpenDisputeErr.windowExpired) := by
  constructor
  · intro h
    have hlt : ¬ (now > paidAt + twoHoursMs) := by omega
    simp [openDispute, hreason, hstatus, hpaid, hlt]
  · intro h
    simp [openDispute, hreason, hstatus, hpaid, h]

/-- Witness for `openDispute_buyer_two_hour_window`: with `paid_at = 0`, a
buyer-raised dispute at 1h59m (6_060_000 ms before the deadline) succeeds
and one at 2h01m fails with the window error. -/
theorem openDispute_buyer_two_hour_window_witness :
    openDispute c6trade c6trade.buyer_id "item not received" false 7140000 =
      Except.ok
        ({ c6trade with status := TradeStatus.DISPUTED },
         { trade_id := c6trade.id, raised_by_id := c6trade.buyer_id,
           reason := "item not received", status := DisputeStatus.OPEN }) ∧
    openDispute c6trade c6trade.buyer_id "item not received" false 7260000 =
      Except.error OpenDisputeErr.windowExpired :=
  ⟨(openDispute_buyer_two_hour_window c6trade "item not received" 7140000 0
      (by decide) rfl rfl).1 (by decide),
   (openDispute_buyer_two_hour_window c6trade "item not received" 7260000 0
      (by decide) rfl rfl).2 (by decide)⟩

/-- C10: `openDispute` has no trade-status precondition beyond the buyer
window.  For any trade with no existing dispute, a non-empty reason, and a
raiser who is buyer or seller, as long as the raiser-is-buyer-and-status-is
`PAID_PENDING_RELEASE` window branch is not triggered, the dispute succeeds
whatever the status — `COMPLETED` and `CANCELLED` included — and the trade
is forced to `DISPUTED`. -/
theorem openDispute_ignores_trade_status
    (trade : Trade) (actorId : Nat) (reason : String) (now : Nat)
    (hreason : reason ≠ "")
    (hrole : trade.buyer_id = actorId ∨ trade.seller_id = actorId)
    (hnw : ¬ (trade.buyer_id = actorId ∧ trade.status = TradeStatus.PAID_PENDING_RELEASE)) :
    openDispute trade actorId reason false now =
      Except.ok
        ({ trade with status := TradeStatus.DISPUTED },
         { trade_id := trade.id, raised_by_id := actorId, reason := reason,
           status := DisputeStatus.OPEN }) := by
  have h1 : ¬ (trade.buyer_id ≠ actorId ∧ trade.seller_id ≠ actorId) := by tauto
  simp [openDispute, hreason, h1, hnw]

/-- Witness for `openDispute_ignores_trade_status`: the seller raises a
dispute on a `COMPLETED` trade and the trade is forced back to
`DISPUTED`. -/
theorem openDispute_ignores_trade_status_witness :
    openDispute c10trade 5 "chargeback" false 99999999 =
      Except.ok
        ({ c10trade with status := TradeStatus.DISPUTED },
         { trade_id := c10trade.id, raised_by_id := 5, reason := "chargeback",
           status := DisputeStatus.OPEN }) :=
  openDispute_ignores_trade_status c10trade 5 "chargeback" 99999999
    (by decide) (Or.inr rfl) (by decide)

/-! ## C4 — release fee arithmetic -/

/-- C4: whenever `releaseTrade` succeeds (which requires the trade to be in
`PAID_PENDING_RELEASE`), it computes `fee = amount * (p2p_fee_rate / 100)`
and `payout = amount - fee`, credits exactly `payout` to the buyer's
balance, leaves every other balance — the seller's included — unchanged,
and records `fee_amount = fee` on the completed trade. -/
theorem releaseTrade_fee_and_payout
    (s : St) (trade : Trade) (actorId now : Nat) (s' : St) (t' : Trade)
    (h : releaseTrade s trade actorId now = Except.ok (s', t')) :
    trade.status = TradeStatus.PAID_PENDING_RELEASE ∧
    s'.balances trade.buyer_id =
      s.balances trade.buyer_id +
        (trade.amount - trade.amount * ((s.p2p_fee_rate).getD 0 / 100)) ∧
    (∀ u, u ≠ trade.buyer_id → s'.balances u = s.balances u) ∧
    t'.fee_amount = trade.amount * ((s.p2p_fee_rate).getD 0 / 100) ∧
    t'.status = TradeStatus.COMPLETED := by
  unfold releaseTrade at h
  split at h
  · exact absurd h (by simp)
  · split at h
    · exact absurd h (by simp)
    · rename_i hst
      simp only [Except.ok.injEq, Prod.mk.injEq] at h
      obtain ⟨hs, ht⟩ := h
      subst hs ht
      refine ⟨by tauto, ?_, ?_, ?_, rfl⟩
      · simp [releasePayout, updateBalance]
      · intro u hu
        simp [updateBalance, hu]
      · simp [releasePayout]

/-- Witness for `releaseTrade_fee_and_payout`: releasing a trade of amount
100 with `p2p_fee_rate = 5` credits the buyer exactly 95, leaves the
seller's balance at 0, and records `fee_amount = 5`. -/
theorem releaseTrade_fee_and_payout_witness :
    c4pair.1.balances 2 = 95 ∧ c4pair.1.balances 1 = 0 ∧
    c4pair.2.fee_amount = 5 ∧ c4pair.2.status = TradeStatus.COMPLETED := by
  obtain ⟨-, h1, h2, h3, h4⟩ :=
    releaseTrade_fee_and_payout c4st c4trade 1 60 c4pair.1 c4pair.2 rfl
  refine ⟨?_, ?_, ?_, h4⟩
  · have := h1
    simp only [c4st, c4trade] at this
    norm_num at this
    exact this
  · have := h2 1 (by simp [c4trade])
    simpa [c4st] using this
  · have := h3
    simp only [c4st, c4trade] at this
    norm_num at this
    exact this

/-! ## C5 — trade cancellation frame -/

/-- C5: cancelling a `PENDING` trade as buyer or seller succeeds, adds the
trade's amount back to the parent offer's `remaining`, marks the trade
`CANCELLED`, and leaves every user's balance unchanged — in particular the
seller's pre-debited balance is not refunded at the trade layer. -/
theorem cancelTrade_pending_effects
    (s : St) (trade : Trade) (actorId now : Nat)
    (hrole : trade.buyer_id = actorId ∨ trade.seller_id = actorId)
    (hstatus : trade.status = TradeStatus.PENDING) :
    ∃ s', cancelTrade s trade actorId now =
        Except.ok
          (s', { trade with status := TradeStatus.CANCELLED, cancelled_at := some now }) ∧
      (∀ u, s'.balances u = s.balances u) ∧
      (∀ o ∈ s.offers, o.id = trade.offer_id →
        { o with remaining := o.remaining + trade.amount } ∈ s'.offers) ∧
      (∀ o ∈ s.offers, o.id ≠ trade.offer_id → o ∈ s'.offers) := by
  have h1 : ¬ (trade.buyer_id ≠ actorId ∧ trade.seller_id ≠ actorId) := by tauto
  have h2 : ¬ (trade.status ≠ TradeStatus.PENDING ∧
      trade.status ≠ TradeStatus.PENDING_PAYMENT) := by simp [hstatus]
  refine ⟨{ s with offers := s.offers.map fun o =>
      if o.id = trade.offer_id
      then { o with remaining := o.remaining + trade.amount } else o },
    ?_, fun u => rfl, ?_, ?_⟩
  · simp [cancelTrade, h1, h2]
  · intro o ho hid
    have hmem : (if o.id = trade.offer_id
        then { o with remaining := o.remaining + trade.amount } else o) ∈
        s.offers.map (fun o => if o.id = trade.offer_id
          then { o with remaining := o.remaining + trade.amount } else o) :=
      List.mem_map_of_mem _ ho
    rw [if_pos hid] at hmem
    exact hmem
  · intro o ho hid
    have hmem : (if o.id = trade.offer_id
        then { o with remaining := o.remaining + trade.amount } else o) ∈
        s.offers.map (fun o => if o.id = trade.offer_id
          then { o with remaining := o.remaining + trade.amount } else o) :=
      List.mem_map_of_mem _ ho
    rw [if_neg hid] at hmem
    exact hmem

/-- Witness for `cancelTrade_pending_effects`: the buyer cancels the
pending trade; the offer regains the 20 units and no balance moves. -/
theorem cancelTrade_pending_effects_witness :
    ∃ s', cancelTrade c5st c5trade 3 900 =
        Except.ok
          (s', { c5trade with status := TradeStatus.CANCELLED, cancelled_at := some 900 }) ∧
      (∀ u, s'.balances u = c5st.balances u) ∧
      (∀ o ∈ c5st.offers, o.id = c5trade.offer_id →
        { o with remaining := o.remaining + c5trade.amount } ∈ s'.offers) ∧
      (∀ o ∈ c5st.offers, o.id ≠ c5trade.offer_id → o ∈ s'.offers) :=
  cancelTrade_pending_effects c5st c5trade 3 900 (Or.inl rfl) rfl

/-! ## C2 — admin dispute release vs trade-engine release -/

/-- C2 counterexample: on a trade of amount 100 with `p2p_fee_rate = 5`,
the trade-engine release computes fee 5 and credits the buyer 95, while
the admin dispute-resolution release computes its fee from the trade's
stored `fee_rate` with a 1% fallback (`parseFloat(trade.fee_rate) || 0.01`)
— fee 1, buyer credit 99 — so the two code paths do not perform the same
fee/payout logic. -/
theorem dispute_release_differs_from_engine_release :
    releasePayout c2st.p2p_fee_rate c2dtrade.amount = (5, 95) ∧
    disputeReleasePayout c2dtrade.fee_rate c2dtrade.amount = (1, 99) ∧
    (adminResolveReleaseTrade c2st c2dtrade 60).1.balances 2 = 99 ∧
    c2enginePair.1.balances 2 = 95 := by
  refine ⟨?_, ?_, ?_, ?_⟩
  · simp only [c2st, c2dtrade, releasePayout, Option.getD, Prod.mk.injEq]
    norm_num
  · simp only [c2dtrade, disputeReleasePayout, Prod.mk.injEq]
    norm_num
  · simp only [adminResolveReleaseTrade, disputeReleasePayout, updateBalance,
      c2st, c2dtrade]
    norm_num
  · simp only [c2enginePair, releaseTrade, releasePayout, updateBalance,
      c2ptrade, c2dtrade, c2st]
    norm_num [Except.toOption]

/-- C2 (amended): the admin dispute-resolution `release` action agrees
with the trade-engine release exactly when the trade's stored `fee_rate`
(with the 1% fallback applied when it is 0) equals `p2p_fee_rate / 100`;
under that hypothesis the fee withheld and the amount credited to the
buyer coincide on both paths. -/
theorem dispute_release_matches_engine_iff_rate_agrees
    (feeSetting : Option ℚ) (storedRate amount : ℚ)
    (h : (if storedRate = 0 then (1 : ℚ) / 100 else storedRate) =
      feeSetting.getD 0 / 100) :
    disputeReleasePayout storedRate amount = releasePayout feeSetting amount := by
  simp only [disputeReleasePayout, releasePayout, h]

/-- Witness for `dispute_release_matches_engine_iff_rate_agrees`: a trade
whose stored `fee_rate` is `5/100` agrees with the engine under setting
`p2p_fee_rate = 5`. -/
theorem dispute_release_matches_engine_iff_rate_agrees_witness :
    disputeReleasePayout (5 / 100) 100 = releasePayout (some 5) 100 :=
  dispute_release_matches_engine_iff_rate_agrees (some 5) (5 / 100) 100 (by norm_num)

/-! ## C1 — createOffer funds checks for ledger-asset SELL offers -/

/-- C1: for a `SELL` offer in the ledger asset `FDA` (request fields
present and well-typed), `createOffer` fails with the insufficient-balance
error when `balance < amount`, fails with the insufficient-usable error
when `balance ≥ amount` but `usable < amount` (with
`usable = balance - locked_in_open_sell_offers - holding_floor -
non_expired_holdings`), and otherwise debits `amount` from the maker's
balance and inserts the offer with `remaining = amount` and
`status = OPEN`. -/
theorem createOffer_ledger_sell_funds
    (s : St) (makerId : Nat) (fiat : String) (price amount : ℚ) (now : Nat)
    (hfiat : fiat ≠ "") (hprice : price ≠ 0) (hamount : amount ≠ 0) :
    (s.balances makerId < amount →
      createOffer s makerId "SELL" "FDA" fiat price amount now =
        Except.error OfferErr.insufficientBalance) ∧
    (¬ s.balances makerId < amount → usableBalance s makerId now < amount →
      createOffer s makerId "SELL" "FDA" fiat price amount now =
        Except.error OfferErr.insufficientUsable) ∧
    (¬ s.balances makerId < amount → ¬ usableBalance s makerId now < amount →
      ∃ s' o, createOffer s makerId "SELL" "FDA" fiat price amount now = Except.ok (s', o) ∧
        s'.balances makerId = s.balances makerId - amount ∧
        (∀ u, u ≠ makerId → s'.balances u = s.balances u) ∧
        o.remaining = amount ∧ o.amount = amount ∧
        o.status = OfferStatus.OPEN ∧ o ∈ s'.offers) := by
  have hv : ¬ (("SELL" : String) = "" ∨ ("FDA" : String) = "" ∨ fiat = "" ∨
      price = 0 ∨ amount = 0) := by
    simp [hfiat, hprice, hamount]
  have hn : jsUpperTrim "SELL" = "SELL" := by decide
  refine ⟨?_, ?_, ?_⟩
  · intro hb
    simp only [createOffer, hn]
    rw [if_neg hv, if_neg (by decide), if_pos (by decide), if_pos hb]
  · intro hb hu
    simp only [createOffer, hn]
    rw [if_neg hv, if_neg (by decide), if_pos (by decide), if_neg hb, if_pos hu]
  · intro hb hu
    have hco : createOffer s makerId "SELL" "FDA" fiat price amount now =
        insertOffer (updateBalance s makerId (-amount)) makerId OfferType.SELL
          "FDA" fiat price amount := by
      simp only [createOffer, hn]
      rw [if_neg hv, if_neg (by decide), if_pos (by decide), if_neg hb, if_neg hu]
    simp only [insertOffer] at hco
    refine ⟨_, _, hco, ?_, ?_, rfl, rfl, rfl, ?_⟩
    · simp [updateBalance, sub_eq_add_neg]
    · intro u hu'
      simp [updateBalance, hu']
    · simp [updateBalance]

/-- Witness for `createOffer_ledger_sell_funds`: maker 1 sells 50 FDA out
of a balance of 100 (usable 90): the offer is created with
`remaining = 50`, `status = OPEN`, and the balance drops to 50. -/
theorem createOffer_ledger_sell_funds_witness :
    ¬ c1st.balances 1 < 50 ∧ ¬ usableBalance c1st 1 0 < 50 ∧
    ∃ s' o, createOffer c1st 1 "SELL" "FDA" "USD" 10 50 0 = Except.ok (s', o) ∧
      s'.balances 1 = c1st.balances 1 - 50 ∧
      (∀ u, u ≠ 1 → s'.balances u = c1st.balances u) ∧
      o.remaining = 50 ∧ o.amount = 50 ∧
      o.status = OfferStatus.OPEN ∧ o ∈ s'.offers := by
  have hb : ¬ c1st.balances 1 < 50 := by
    simp only [c1st]
    norm_num
  have hu : ¬ usableBalance c1st 1 0 < 50 := by
    simp only [usableBalance, lockedInOpenSellOffers, holdingLockedAmount, c1st]
    norm_num
  exact ⟨hb, hu,
    (createOffer_ledger_sell_funds c1st 1 "USD" 10 50 0 (by decide) (by norm_num)
      (by norm_num)).2.2 hb hu⟩

/-! ## C7 — create-then-cancel conservation -/

/-- C7: creating a `SELL` offer of amount `A` in the ledger asset (the
request being valid and both funds checks passing) and then cancelling it
immediately as the maker — no intervening trades, so `remaining = A` —
returns the maker's balance to its initial value: the debit of `A` at
creation is exactly undone by the credit of `remaining = A` at
cancellation. -/
theorem cancelOffer_sell_fda_credit (s : St) (offer : Offer) (actorId : Nat)
    (hmaker : offer.maker_id = actorId) (hstatus : offer.status = OfferStatus.OPEN)
    (htype : offer.type = OfferType.SELL) (hasset : offer.asset_symbol = "FDA") :
    ∃ s'' o', cancelOffer s offer actorId = Except.ok (s'', o') ∧
      ∀ u, s''.balances u =
        if u = actorId then s.balances u + offer.remaining else s.balances u := by
  have hc : cancelOffer s offer actorId =
      Except.ok
        ({ updateBalance s actorId offer.remaining with
           offers := (updateBalance s actorId offer.remaining).offers.map fun o =>
             if o.id = offer.id
             then { offer with status := OfferStatus.CANCELLED } else o },
         { offer with status := OfferStatus.CANCELLED }) := by
    simp only [cancelOffer]
    rw [if_neg (by simp [hmaker]), if_neg (by simp [hstatus]),
      if_pos (⟨htype, hasset⟩ : offer.type = OfferType.SELL ∧ offer.asset_symbol = "FDA")]
  exact ⟨_, _, hc, fun u => by simp [updateBalance]⟩

theorem offer_create_then_cancel_conserves_balance
    (s : St) (makerId : Nat) (fiat : String) (price A : ℚ) (now : Nat)
    (hfiat : fiat ≠ "") (hprice : price ≠ 0) (hA : A ≠ 0)
    (hbal : ¬ s.balances makerId < A)
    (husable : ¬ usableBalance s makerId now < A) :
    ∃ s' o s'' o',
      createOffer s makerId "SELL" "FDA" fiat price A now = Except.ok (s', o) ∧
      cancelOffer s' o makerId = Except.ok (s'', o') ∧
      s''.balances makerId = s.balances makerId := by
  have hv : ¬ (("SELL" : String) = "" ∨ ("FDA" : String) = "" ∨ fiat = "" ∨
      price = 0 ∨ A = 0) := by
    simp [hfiat, hprice, hA]
  have hn : jsUpperTrim "SELL" = "SELL" := by decide
  have hco : createOffer s makerId "SELL" "FDA" fiat price A now =
      insertOffer (updateBalance s makerId (-A)) makerId OfferType.SELL
        "FDA" fiat price A := by
    simp only [createOffer, hn]
    rw [if_neg hv, if_neg (by decide), if_pos (by decide), if_neg hbal, if_neg husable]
  simp only [insertOffer] at hco
  obtain ⟨s'', o', hca, hbal''⟩ := cancelOffer_sell_fda_credit
    { updateBalance s makerId (-A) with
      offers := (updateBalance s makerId (-A)).offers ++
        [{ id := (updateBalance s makerId (-A)).nextOfferId, maker_id := makerId,
           type := OfferType.SELL, asset_symbol := "FDA", fiat_currency := fiat,
           price := price, amount := A, remaining := A, status := OfferStatus.OPEN }],
      nextOfferId := (updateBalance s makerId (-A)).nextOfferId + 1 }
    { id := (updateBalance s makerId (-A)).nextOfferId, maker_id := makerId,
      type := OfferType.SELL, asset_symbol := "FDA", fiat_currency := fiat,
      price := price, amount := A, remaining := A, status := OfferStatus.OPEN }
    makerId rfl rfl rfl rfl
  refine ⟨_, _, s'', o', hco, hca, ?_⟩
  have hb := hbal'' makerId
  rw [if_pos rfl] at hb
  rw [hb]
  simp [updateBalance]

/-- Witness for `offer_create_then_cancel_conserves_balance`: maker 1
creates a SELL offer of 50 FDA from a balance of 100 and cancels it; the
balance returns to 100. -/
theorem offer_create_then_cancel_conserves_balance_witness :
    ∃ s' o s'' o',
      createOffer c7st 1 "SELL" "FDA" "USD" 10 50 0 = Except.ok (s', o) ∧
      cancelOffer s' o 1 = Except.ok (s'', o') ∧
      s''.balances 1 = c7st.balances 1 :=
  offer_create_then_cancel_conserves_balance c7st 1 "USD" 10 50 0 (by decide)
    (by norm_num) (by norm_num)
    (by simp only [c7st]; norm_num)
    (by simp only [usableBalance, lockedInOpenSellOffers, holdingLockedAmount, c7st]
        norm_num)

/-! ## C9 — self-trades are not prevented -/

/-- C9 counterexample: `acceptOffer` performs no self-trade check, so the
maker of an offer can accept it themselves, producing a trade with
`buyer_id = seller_id = 1`. -/
theorem acceptOffer_allows_self_trade :
    acceptOffer c9st c9offer 1 5 0 = Except.ok (c9pair.1, c9pair.2) ∧
    c9pair.2.buyer_id = 1 ∧ c9pair.2.seller_id = 1 :=
  ⟨rfl, rfl, rfl⟩

/-- C9 (amended): a trade created by `acceptOffer` has equal buyer and
seller identities exactly when the acceptor is the offer's maker; the code
never rejects that case, so `buyer_id ≠ seller_id` holds only for trades
whose acceptor is not the maker. -/
theorem acceptOffer_buyer_eq_seller_iff_self_accept
    (s : St) (offer : Offer) (acceptorId : Nat) (amount : ℚ) (now : Nat)
    (s' : St) (t : Trade)
    (h : acceptOffer s offer acceptorId amount now = Except.ok (s', t)) :
    (t.buyer_id = t.seller_id ↔ acceptorId = offer.maker_id) := by
  simp only [acceptOffer] at h
  split at h
  · exact absurd h (by simp)
  split at h
  · exact absurd h (by simp)
  split at h
  · exact absurd h (by simp)
  split at h
  · split at h
    · exact absurd h (by simp)
    split at h
    · exact absurd h (by simp)
    · rename_i hbuy _ _
      simp only [Except.ok.injEq, Prod.mk.injEq] at h
      obtain ⟨-, ht⟩ := h
      subst ht
      have hnotsell : ¬ offer.type = OfferType.SELL := by
        rw [hbuy.1]
        intro hc
        cases hc
      simp only [hnotsell, if_neg, if_false]
      exact eq_comm
  · rename_i hnotbuyfda
    simp only [Except.ok.injEq, Prod.mk.injEq] at h
    obtain ⟨-, ht⟩ := h
    subst ht
    by_cases hsell : offer.type = OfferType.SELL
    · simp [hsell]
    · simp only [hsell, if_neg, if_false]
      exact eq_comm

/-- Witness for `acceptOffer_buyer_eq_seller_iff_self_accept`: when user 2
accepts maker 1's offer, the created trade's buyer equals its seller iff
`2 = 1`; hence they differ. -/
theorem acceptOffer_buyer_eq_seller_iff_self_accept_witness :
    (c9wpair.2.buyer_id = c9wpair.2.seller_id ↔ 2 = 1) :=
  acceptOffer_buyer_eq_seller_iff_self_accept c9st c9offer 2 5 0
    c9wpair.1 c9wpair.2 rfl

/-! ## C8 — bulk-funding validation -/

/-- C8 counterexample: the raw string `"6m"` does not match the claim's
pattern `^\d+M$` (lowercase `m`), yet the bulk-funding operation accepts
it — `calculateExpirationDate` matches the regex against the uppercased,
trimmed string — credits the balance, and writes a holding row. -/
theorem transfer_accepts_period_not_matching_raw_pattern :
    specMonthsPattern "6m" = false ∧
    (transferToMcWallet c8st (some "user1") (AmountInput.value 5) (some "6m")
      (some 42) 0).isOk = true ∧
    c8res.holdings.length = 1 ∧
    c8res.balances 42 = 5 := by
  refine ⟨by decide, by decide, by decide, ?_⟩
  show (0 : ℚ) + 5 = 5
  norm_num

/-- C8 (amended): the bulk-funding operation rejects a non-numeric amount,
rejects a non-positive amount, and rejects any holding-period string whose
uppercased, trimmed form fails the `^\d+M$`-with-positive-month-count
check (`parseHoldingMonths`); every rejection returns before any state
mutation, so the resulting database state is exactly the initial one. -/
theorem transfer_rejects_invalid_amount_and_period
    (s : St) (userId : Option String) (hp : String) (lookupUser : Option Nat)
    (now : Nat) (q : ℚ)
    (huser : userId.getD "" ≠ "") :
    (transferToMcWallet s userId AmountInput.notNumeric (some hp) lookupUser now =
      Except.error TransferErr.amountNotNumeric) ∧
    (q ≤ 0 →
      transferToMcWallet s userId (AmountInput.value q) (some hp) lookupUser now =
        Except.error TransferErr.amountNotPositive) ∧
    (¬ q ≤ 0 → hp ≠ "" → parseHoldingMonths hp = none →
      transferToMcWallet s userId (AmountInput.value q) (some hp) lookupUser now =
        Except.error TransferErr.invalidHoldingPeriod) ∧
    (∀ amt e,
      transferToMcWallet s userId amt (some hp) lookupUser now = Except.error e →
      transferResultState s userId amt (some hp) lookupUser now = s) := by
  refine ⟨?_, ?_, ?_, ?_⟩
  · simp [transferToMcWallet, huser]
  · intro hq
    simp [transferToMcWallet, huser, hq]
  · intro hq hhp hparse
    simp [transferToMcWallet, huser, hq, hhp, hparse]
  · intro amt e he
    simp [transferResultState, he]

/-- Witness for `transfer_rejects_invalid_amount_and_period` on the
concrete empty state: a NaN amount, the amount `-3`, and the malformed
period `"6 months"` are all rejected, leaving the state unchanged. -/
theorem transfer_rejects_invalid_amount_and_period_witness :
    (transferToMcWallet c8st (some "user1") AmountInput.notNumeric (some "6 months")
      (some 42) 0 = Except.error TransferErr.amountNotNumeric) ∧
    (transferToMcWallet c8st (some "user1") (AmountInput.value (-3)) (some "6 months")
      (some 42) 0 = Except.error TransferErr.amountNotPositive) ∧
    (transferToMcWallet c8st (some "user1") (AmountInput.value 5) (some "6 months")
      (some 42) 0 = Except.error TransferErr.invalidHoldingPeriod) ∧
    (transferResultState c8st (some "user1") (AmountInput.value 5) (some "6 months")
      (some 42) 0 = c8st) := by
  obtain ⟨h1, h2, h3, h4⟩ := transfer_rejects_invalid_amount_and_period
    c8st (some "user1") "6 months" (some 42) 0 (-3) (by decide)
  obtain ⟨-, -, h3', -⟩ := transfer_rejects_invalid_amount_and_period
    c8st (some "user1") "6 months" (some 42) 0 5 (by decide)
  have hp3 := h3' (by norm_num) (by decide) (by decide)
  exact ⟨h1, h2 (by norm_num), hp3, h4 _ _ hp3⟩

end MCBackend
